import Mathlib

/-!
Shallow embedding of `src/app.py` (a Flask CRUD API over Team and Role
entities with a many-to-many `team_role` join table), together with proofs
about the request handlers.

Modelling conventions:
* Each SQLAlchemy table row is a record; the whole database is a `DBState`
  (lists of rows plus the autoincrement counters for the two primary keys).
* A handler is a function from its inputs and the current `DBState` to an
  `Outcome` (a JSON body with an HTTP status) and the next `DBState`.
  Read-only handlers just return the `Outcome`.
* A Python exception that escapes the handler (and is therefore reported by
  Flask as an unhandled 500) is the distinguished outcome `serverError`.
* JSON bodies are modelled structurally so that field names (which are
  case-sensitive) can be compared.
-/

namespace Cargill

/-- The fragment of JSON the handlers produce. -/
inductive Json where
  | str : String → Json
  | num : Nat → Json
  | bool : Bool → Json
  | arr : List Json → Json
  | obj : List (String × Json) → Json

/-- Top-level keys of a JSON object, in order. -/
def Json.keys : Json → List String
  | .obj fs => fs.map (·.1)
  | _ => []

/-- Look up a top-level field of a JSON object (JSON keys are case-sensitive). -/
def Json.getField : Json → String → Option Json
  | .obj fs, k => (fs.find? (fun p => p.1 == k)).map (·.2)
  | _, _ => none

/-- Result of one request: a JSON body plus an HTTP status code, or an
exception escaping the handler (surfaced by the framework as an unhandled
server error). -/
inductive Outcome where
  | response : Json → Nat → Outcome
  | serverError : Outcome

/-- Body and status of a normal response; `none` for an escaped exception. -/
def Outcome.shape : Outcome → Option (List String × Nat)
  | .response j c => some (j.keys, c)
  | .serverError => none

/-- A row of the `teams` table: `id` integer primary key, `name`,
`description`. -/
structure Team where
  id : Nat
  name : String
  description : String
  deriving Repr, DecidableEq

/-- A row of the `roles` table: `id` integer primary key, `name`,
`description`. -/
structure Role where
  id : Nat
  name : String
  description : String
  deriving Repr, DecidableEq

/-- `Team.serialize` from the source: `{'id': ..., 'name': ..., 'description': ...}`. -/
def Team.serialize (t : Team) : Json :=
  .obj [("id", .num t.id), ("name", .str t.name), ("description", .str t.description)]

/-- `Role.serialize` from the source, identical field set. -/
def Role.serialize (r : Role) : Json :=
  .obj [("id", .num r.id), ("name", .str r.name), ("description", .str r.description)]

/-- The database: the `teams` and `roles` tables, the `team_role` join table
(rows `(team_id, role_id)` in insertion order), and the autoincrement
counters for the two integer primary keys. -/
structure DBState where
  teams : List Team
  roles : List Role
  team_role : List (Nat × Nat)
  nextTeamId : Nat
  nextRoleId : Nat
  deriving Repr, DecidableEq

/-- Invariants guaranteed by the storage layer: primary keys are distinct and
below the autoincrement counters. -/
def WF (s : DBState) : Prop :=
  (s.teams.map (·.id)).Nodup ∧ (s.roles.map (·.id)).Nodup ∧
  (∀ t ∈ s.teams, t.id < s.nextTeamId) ∧ (∀ r ∈ s.roles, r.id < s.nextRoleId)

instance (s : DBState) : Decidable (WF s) := by
  unfold WF; infer_instance

/-- `team.roles` (the relationship through the `team_role` secondary table):
the role rows joined to `t`, in join-row order. -/
def teamRoles (s : DBState) (t : Team) : List Role :=
  (s.team_role.filter (fun p => p.1 == t.id)).filterMap
    (fun p => s.roles.find? (fun r => r.id == p.2))

/-- `Team.get_roles` from the source: `if self.roles: [role.name for role in
self.roles]` else `[]`. -/
def Team.get_roles (s : DBState) (t : Team) : List String :=
  let rs := teamRoles s t
  if rs.isEmpty then [] else rs.map (·.name)

/-- The JSON body of a POST `/teams` or `/roles` request, as the handler sees
it: whether `request.is_json` holds, and the values of the `name` and
`description` keys when present. -/
structure CreateReq where
  is_json : Bool
  name? : Option String
  description? : Option String
  deriving Repr, DecidableEq

/-- The JSON body of a POST `/team/assign/role` request. `valid_json` is
whether `request.json` parses without raising (the `validate_json` wrapper
probes exactly this); `team_name?`/`role_name?` are the body's keys when
present. -/
structure AssignReq where
  valid_json : Bool
  is_json : Bool
  team_name? : Option String
  role_name? : Option String
  deriving Repr, DecidableEq

/-- GET `/team/<team_id>`: `Team.query.get` then serialize, else 404. -/
def get_team (team_id : Nat) (s : DBState) : Outcome :=
  match s.teams.find? (fun t => t.id == team_id) with
  | some team =>
      .response (.obj [("success", .bool true), ("data", team.serialize)]) 200
  | none =>
      .response (.obj [("success", .bool false),
        ("message", .str s!"Team id {team_id} not found")]) 404

/-- GET `/teams`: all teams serialized, with a count. Note the source writes
the success flag of this one handler with a capital S: `{"Success": True, ...}`. -/
def get_teams (s : DBState) : Outcome :=
  let results := s.teams.map Team.serialize
  .response (.obj [("Success", .bool true), ("count", .num results.length),
    ("data", .arr results)]) 200

/-- POST `/teams`. The source wraps the whole body in `try/except Exception`:
* body not JSON → 400;
* `data['name']` missing → `KeyError` in the `try`, and the `except` block's
  f-string evaluates `data['name']` again, raising a second `KeyError` that
  escapes the handler (`serverError`);
* `data['description']` missing → `KeyError` in the `try`, but this time the
  `except` block's `f"Team {data['name']} already exists"` succeeds, so the
  handler answers 409 without touching the database;
* duplicate `name` → the commit raises (uniqueness violation), caught and
  reported as 409, nothing persisted;
* otherwise the row is inserted with the next autoincrement id. -/
def create_team (req : CreateReq) (s : DBState) : Outcome × DBState :=
  if req.is_json then
    match req.name? with
    | none => (.serverError, s)
    | some nm =>
      match req.description? with
      | none =>
          (.response (.obj [("success", .bool false),
            ("message", .str s!"Team {nm} already exists")]) 409, s)
      | some d =>
        if s.teams.any (fun t => t.name == nm) then
          (.response (.obj [("success", .bool false),
            ("message", .str s!"Team {nm} already exists")]) 409, s)
        else
          (.response (.obj [("success", .bool true),
            ("message", .str s!"Team {nm} has been created successfully")]) 200,
           { s with teams := s.teams ++ [⟨s.nextTeamId, nm, d⟩],
                    nextTeamId := s.nextTeamId + 1 })
  else
    (.response (.obj [("success", .bool false),
      ("message", .str "The request payload is not in JSON format")]) 400, s)

/-- DELETE `/team/<team_id>`: remove the row if present (the storage layer
also drops its `team_role` join rows), else 404. -/
def delete_team (team_id : Nat) (s : DBState) : Outcome × DBState :=
  if (s.teams.find? (fun t => t.id == team_id)).isSome then
    (.response (.obj [("success", .bool true),
      ("message", .str s!"Team {team_id} Deleted success")]) 200,
     { s with teams := s.teams.filter (fun t => !(t.id == team_id)),
              team_role := s.team_role.filter (fun p => !(p.1 == team_id)) })
  else
    (.response (.obj [("success", .bool false),
      ("message", .str s!"Team id {team_id} not found")]) 404, s)

/-- GET `/role/<role_id>`. -/
def get_role (role_id : Nat) (s : DBState) : Outcome :=
  match s.roles.find? (fun r => r.id == role_id) with
  | some role =>
      .response (.obj [("success", .bool true), ("data", role.serialize)]) 200
  | none =>
      .response (.obj [("success", .bool false),
        ("message", .str s!"Role id {role_id} not found")]) 404

/-- GET `/roles`: all roles serialized, with a count; here the success flag is
lowercase `"success"`. -/
def get_roles (s : DBState) : Outcome :=
  let results := s.roles.map Role.serialize
  .response (.obj [("success", .bool true), ("count", .num results.length),
    ("data", .arr results)]) 200

/-- POST `/roles`: same structure (and same exception behaviour) as
`create_team`, over the `roles` table. -/
def create_role (req : CreateReq) (s : DBState) : Outcome × DBState :=
  if req.is_json then
    match req.name? with
    | none => (.serverError, s)
    | some nm =>
      match req.description? with
      | none =>
          (.response (.obj [("success", .bool false),
            ("message", .str s!"Role {nm} already exists")]) 409, s)
      | some d =>
        if s.roles.any (fun r => r.name == nm) then
          (.response (.obj [("success", .bool false),
            ("message", .str s!"Role {nm} already exists")]) 409, s)
        else
          (.response (.obj [("success", .bool true),
            ("message", .str s!"Role {nm} has been created successfully")]) 200,
           { s with roles := s.roles ++ [⟨s.nextRoleId, nm, d⟩],
                    nextRoleId := s.nextRoleId + 1 })
  else
    (.response (.obj [("success", .bool false),
      ("message", .str "The request payload is not in JSON format")]) 400, s)

/-- DELETE `/role/<role_id>`. -/
def delete_role (role_id : Nat) (s : DBState) : Outcome × DBState :=
  if (s.roles.find? (fun r => r.id == role_id)).isSome then
    (.response (.obj [("success", .bool true),
      ("message", .str s!"Role id {role_id} Deleted success")]) 200,
     { s with roles := s.roles.filter (fun r => !(r.id == role_id)),
              team_role := s.team_role.filter (fun p => !(p.2 == role_id)) })
  else
    (.response (.obj [("success", .bool false),
      ("message", .str s!"Role id {role_id} not found")]) 404, s)

/-- The `validate_json` decorator. Its `try: request.json / except BadRequest`
clause names `BadRequest`, which is never imported in `app.py`; when
`request.json` raises on an unparseable body, looking up `BadRequest` raises
`NameError`, which escapes — the wrapper never produces its intended 400. -/
def validate_json (f : AssignReq → DBState → Outcome × DBState)
    (req : AssignReq) (s : DBState) : Outcome × DBState :=
  if req.valid_json then f req s else (.serverError, s)

/-- The body of the `/team/assign/role` handler (before the `validate_json`
wrapper): reads `data["team_name"]` and `data["role_name"]` (a missing key
raises `KeyError`, uncaught), looks both up by name, 404 naming whichever is
missing, otherwise appends a `team_role` join row and commits. -/
def assign_role_body (req : AssignReq) (s : DBState) : Outcome × DBState :=
  if req.is_json then
    match req.team_name?, req.role_name? with
    | some team_name, some role_name =>
      match s.teams.find? (fun t => t.name == team_name) with
      | none =>
          (.response (.obj [("success", .bool false),
            ("message", .str s!"Team {team_name} does not exist")]) 404, s)
      | some team =>
        match s.roles.find? (fun r => r.name == role_name) with
        | none =>
            (.response (.obj [("success", .bool false),
              ("message", .str s!"Role {role_name} does not exist")]) 404, s)
        | some role =>
            (.response (.obj [("success", .bool true),
              ("message", .str s!"Assign Role {role_name} to Team {team_name} is success")]) 200,
             { s with team_role := s.team_role ++ [(team.id, role.id)] })
    | _, _ => (.serverError, s)
  else
    (.response (.obj [("success", .bool false),
      ("message", .str "The request payload is not in JSON format")]) 400, s)

/-- POST `/team/assign/role` as routed: the handler under the `validate_json`
decorator. -/
def assign_role (req : AssignReq) (s : DBState) : Outcome × DBState :=
  validate_json assign_role_body req s

/-- GET `/team/<team_name>/roles`: first team with that name, then its role
names, else 404. -/
def get_team_roles (team_name : String) (s : DBState) : Outcome :=
  match s.teams.find? (fun t => t.name == team_name) with
  | some team =>
      .response (.obj [("success", .bool true),
        ("data", .arr ((Team.get_roles s team).map Json.str))]) 200
  | none =>
      .response (.obj [("success", .bool false),
        ("message", .str s!"Team {team_name} not found")]) 404

/-- The state with the Team and Role tables exchanged: the "analogous input"
for comparing the Role endpoints with the Team endpoints. -/
def mirror (s : DBState) : DBState :=
  { teams := s.roles.map (fun r => ⟨r.id, r.name, r.description⟩),
    roles := s.teams.map (fun t => ⟨t.id, t.name, t.description⟩),
    team_role := s.team_role.map (fun p => (p.2, p.1)),
    nextTeamId := s.nextRoleId,
    nextRoleId := s.nextTeamId }

/-! ### Helper lemmas -/

/-- Looking a row up by primary key hits a given member when the keys in the
table are distinct. -/
lemma find?_key_of_nodup {α : Type} (key : α → Nat) {l : List α}
    (h : (l.map key).Nodup) {a : α} (ha : a ∈ l) :
    l.find? (fun x => key x == key a) = some a := by
  induction l with
  | nil => cases ha
  | cons b t ih =>
    rw [List.map_cons, List.nodup_cons] at h
    rcases List.mem_cons.1 ha with rfl | ha'
    · exact List.find?_cons_of_pos _ (by simp)
    · have hb : key b ≠ key a := fun he =>
        h.1 (he ▸ List.mem_map_of_mem key ha')
      exact (List.find?_cons_of_neg _ (by simp [hb])).trans (ih h.2 ha')

/-- No row of a table matches a key strictly above every stored key. -/
lemma find?_id_eq_none_of_lt {l : List Team} {n : Nat} (h : ∀ t ∈ l, t.id < n) :
    l.find? (fun t => t.id == n) = none :=
  List.find?_eq_none.2 (fun t ht => by simp [Nat.ne_of_lt (h t ht)])

/-! ### Claims -/

/-- C1: creating a team whose name is not yet taken answers 200, and fetching
the id assigned to the new row answers 200 with the supplied name and
description. -/
theorem create_then_get_roundtrip (s : DBState) (nm d : String)
    (hWF : WF s)
    (huniq : s.teams.any (fun t => t.name == nm) = false) :
    (create_team ⟨true, some nm, some d⟩ s).1 =
      .response (.obj [("success", .bool true),
        ("message", .str s!"Team {nm} has been created successfully")]) 200 ∧
    get_team s.nextTeamId (create_team ⟨true, some nm, some d⟩ s).2 =
      .response (.obj [("success", .bool true),
        ("data", .obj [("id", .num s.nextTeamId), ("name", .str nm),
          ("description", .str d)])]) 200 := by
  obtain ⟨-, -, hlt, -⟩ := hWF
  have h1 : s.teams.find? (fun t => t.id == s.nextTeamId) = none :=
    find?_id_eq_none_of_lt hlt
  constructor
  · simp [create_team, huniq]
  · simp [create_team, huniq, get_team, List.find?_append, h1, Team.serialize]

/-- C1 witness: a concrete run on the empty database. -/
theorem create_then_get_roundtrip_witness :
    WF ⟨[], [], [], 1, 1⟩ ∧
    (([] : List Team).any (fun t => t.name == "Ops") = false) ∧
    ((create_team ⟨true, some "Ops", some "Operations"⟩ ⟨[], [], [], 1, 1⟩).1 =
      .response (.obj [("success", .bool true),
        ("message", .str "Team Ops has been created successfully")]) 200 ∧
     get_team 1 (create_team ⟨true, some "Ops", some "Operations"⟩ ⟨[], [], [], 1, 1⟩).2 =
      .response (.obj [("success", .bool true),
        ("data", .obj [("id", .num 1), ("name", .str "Ops"),
          ("description", .str "Operations")])]) 200) :=
  ⟨by decide, rfl, create_then_get_roundtrip ⟨[], [], [], 1, 1⟩ "Ops" "Operations" (by decide) rfl⟩

/-- C2: creating a team whose name is already stored answers 409 with the
"already exists" message, and the database (so in particular the stored team
of that name and the set of teams) is unchanged. -/
theorem create_team_conflict (s : DBState) (nm d : String)
    (hdup : s.teams.any (fun t => t.name == nm) = true) :
    create_team ⟨true, some nm, some d⟩ s =
      (.response (.obj [("success", .bool false),
        ("message", .str s!"Team {nm} already exists")]) 409, s) := by
  simp [create_team, hdup]

/-- C2 witness: a concrete conflicting request leaves the stored row intact. -/
theorem create_team_conflict_witness :
    ((⟨[⟨1, "Ops", "Operations"⟩], [], [], 2, 1⟩ : DBState).teams.any
      (fun t => t.name == "Ops") = true) ∧
    create_team ⟨true, some "Ops", some "Other"⟩ ⟨[⟨1, "Ops", "Operations"⟩], [], [], 2, 1⟩ =
      (.response (.obj [("success", .bool false),
        ("message", .str "Team Ops already exists")]) 409,
       ⟨[⟨1, "Ops", "Operations"⟩], [], [], 2, 1⟩) :=
  ⟨rfl, create_team_conflict ⟨[⟨1, "Ops", "Operations"⟩], [], [], 2, 1⟩ "Ops" "Other" rfl⟩

/-- C5: a request whose body is not parseable JSON is not answered 400 by the
`validate_json` wrapper; the wrapper's `except BadRequest` clause names an
identifier that `app.py` never imports, so a `NameError` escapes and the
request dies as an unhandled server error. -/
theorem assign_role_malformed_body_uncaught :
    assign_role ⟨false, false, some "Ops", some "Admin"⟩ ⟨[], [], [], 1, 1⟩ =
      (.serverError, ⟨[], [], [], 1, 1⟩) := rfl

/-- C6 counterexample: the ListTeams response spells its success flag
`"Success"` (capital S), so it has no `"success"` field; JSON keys are
case-sensitive. -/
theorem get_teams_success_key_capitalized :
    get_teams ⟨[], [], [], 1, 1⟩ = .response (.obj [("Success", .bool true),
      ("count", .num 0), ("data", .arr [])]) 200 ∧
    (Json.obj [("Success", .bool true), ("count", .num 0),
      ("data", .arr [])]).getField "success" = none := ⟨rfl, rfl⟩

/-- C6 amended: ListTeams always answers 200 with an object of shape
`{Success, count, data}` (capital-S success flag) where `data` is the list of
all stored teams serialized and `count` is its length; the empty state yields
count 0 and an empty list. -/
theorem get_teams_contract (s : DBState) :
    get_teams s = .response (.obj [("Success", .bool true),
      ("count", .num (s.teams.map Team.serialize).length),
      ("data", .arr (s.teams.map Team.serialize))]) 200 ∧
    (s.teams.map Team.serialize).length = s.teams.length ∧
    get_teams ⟨[], [], [], 1, 1⟩ = .response (.obj [("Success", .bool true),
      ("count", .num 0), ("data", .arr [])]) 200 :=
  ⟨rfl, List.length_map _ _, rfl⟩

/-- C10: a valid-JSON create request lacking the `name` key is answered
neither 400 nor 409: `data['name']` raises `KeyError`, the broad `except`
block evaluates `data['name']` again in its f-string and raises once more, so
the error escapes the handler, for teams and for roles alike. -/
theorem create_missing_name_uncaught (s : DBState) (d : Option String) :
    create_team ⟨true, none, d⟩ s = (.serverError, s) ∧
    create_role ⟨true, none, d⟩ s = (.serverError, s) := ⟨rfl, rfl⟩

/-- C7: DeleteTeam answers 200 when the id is stored (and a subsequent
GetTeam on that id answers 404) and 404 otherwise, leaving the state
untouched in the latter case. -/
theorem delete_team_spec (i : Nat) (s : DBState) :
    ((s.teams.find? (fun t => t.id == i)).isSome →
      (delete_team i s).1 = .response (.obj [("success", .bool true),
        ("message", .str s!"Team {i} Deleted success")]) 200 ∧
      get_team i (delete_team i s).2 = .response (.obj [("success", .bool false),
        ("message", .str s!"Team id {i} not found")]) 404) ∧
    (s.teams.find? (fun t => t.id == i) = none →
      delete_team i s = (.response (.obj [("success", .bool false),
        ("message", .str s!"Team id {i} not found")]) 404, s)) := by
  constructor
  · intro h
    have hgone : (s.teams.filter (fun t => !(t.id == i))).find?
        (fun t => t.id == i) = none := by
      refine List.find?_eq_none.2 (fun x hx => ?_)
      simpa using (List.mem_filter.1 hx).2
    exact ⟨by simp [delete_team, h], by simp [delete_team, h, get_team, hgone]⟩
  · intro h
    simp [delete_team, h]

/-- C7 witness: deleting a stored id succeeds and hides it from GetTeam;
deleting an absent id answers 404. -/
theorem delete_team_spec_witness :
    (((⟨[⟨1, "Ops", "Operations"⟩], [], [], 2, 1⟩ : DBState).teams.find?
        (fun t => t.id == 1)).isSome ∧
      (delete_team 1 ⟨[⟨1, "Ops", "Operations"⟩], [], [], 2, 1⟩).1 =
        .response (.obj [("success", .bool true),
          ("message", .str "Team 1 Deleted success")]) 200 ∧
      get_team 1 (delete_team 1 ⟨[⟨1, "Ops", "Operations"⟩], [], [], 2, 1⟩).2 =
        .response (.obj [("success", .bool false),
          ("message", .str "Team id 1 not found")]) 404) ∧
    ((⟨[], [], [], 1, 1⟩ : DBState).teams.find? (fun t => t.id == 7) = none ∧
      delete_team 7 ⟨[], [], [], 1, 1⟩ =
        (.response (.obj [("success", .bool false),
          ("message", .str "Team id 7 not found")]) 404, ⟨[], [], [], 1, 1⟩)) :=
  ⟨⟨rfl, (delete_team_spec 1 ⟨[⟨1, "Ops", "Operations"⟩], [], [], 2, 1⟩).1 rfl⟩,
   ⟨rfl, (delete_team_spec 7 ⟨[], [], [], 1, 1⟩).2 rfl⟩⟩

/-- C4: AssignRole on a stored team and an unknown role answers 404 naming the
role and leaves the state (hence the team's association set, as observed by
GetTeamRoles) unchanged; when the team is unknown it answers 404 naming the
team, again without mutation. -/
theorem assign_role_missing_404_frame (s : DBState) (tn rn : String) :
    ((s.teams.find? (fun t => t.name == tn)).isSome →
      s.roles.find? (fun r => r.name == rn) = none →
      assign_role ⟨true, true, some tn, some rn⟩ s =
        (.response (.obj [("success", .bool false),
          ("message", .str s!"Role {rn} does not exist")]) 404, s) ∧
      get_team_roles tn (assign_role ⟨true, true, some tn, some rn⟩ s).2 =
        get_team_roles tn s) ∧
    (s.teams.find? (fun t => t.name == tn) = none →
      assign_role ⟨true, true, some tn, some rn⟩ s =
        (.response (.obj [("success", .bool false),
          ("message", .str s!"Team {tn} does not exist")]) 404, s)) := by
  constructor
  · intro hts hrn
    obtain ⟨team, ht⟩ := Option.isSome_iff_exists.1 hts
    have heq : assign_role ⟨true, true, some tn, some rn⟩ s =
        (.response (.obj [("success", .bool false),
          ("message", .str s!"Role {rn} does not exist")]) 404, s) := by
      simp [assign_role, validate_json, assign_role_body, ht, hrn]
    exact ⟨heq, by rw [heq]⟩
  · intro ht
    simp [assign_role, validate_json, assign_role_body, ht]

/-- C4 witness: both 404 branches exercised on a one-team database. -/
theorem assign_role_missing_404_frame_witness :
    (((⟨[⟨1, "Ops", "Operations"⟩], [], [], 2, 1⟩ : DBState).teams.find?
        (fun t => t.name == "Ops")).isSome ∧
      (⟨[⟨1, "Ops", "Operations"⟩], [], [], 2, 1⟩ : DBState).roles.find?
        (fun r => r.name == "Admin") = none ∧
      assign_role ⟨true, true, some "Ops", some "Admin"⟩
          ⟨[⟨1, "Ops", "Operations"⟩], [], [], 2, 1⟩ =
        (.response (.obj [("success", .bool false),
          ("message", .str "Role Admin does not exist")]) 404,
         ⟨[⟨1, "Ops", "Operations"⟩], [], [], 2, 1⟩)) ∧
    ((⟨[], [], [], 1, 1⟩ : DBState).teams.find? (fun t => t.name == "Ops") = none ∧
      assign_role ⟨true, true, some "Ops", some "Admin"⟩ ⟨[], [], [], 1, 1⟩ =
        (.response (.obj [("success", .bool false),
          ("message", .str "Team Ops does not exist")]) 404, ⟨[], [], [], 1, 1⟩)) :=
  ⟨⟨rfl, rfl,
    ((assign_role_missing_404_frame ⟨[⟨1, "Ops", "Operations"⟩], [], [], 2, 1⟩
      "Ops" "Admin").1 rfl rfl).1⟩,
   ⟨rfl, (assign_role_missing_404_frame ⟨[], [], [], 1, 1⟩ "Ops" "Admin").2 rfl⟩⟩

/-- Appending a join row for `team` extends its relationship list by the
joined role (looked up by id). -/
lemma teamRoles_append_pair (s : DBState) (team : Team) (role : Role)
    (hfind : s.roles.find? (fun x => x.id == role.id) = some role) :
    teamRoles { s with team_role := s.team_role ++ [(team.id, role.id)] } team
      = teamRoles s team ++ [role] := by
  simp [teamRoles, List.filter_append, List.filterMap_append, hfind]

/-- A role whose join row is stored appears in the team's relationship list. -/
lemma role_mem_teamRoles (s : DBState) {team : Team} {role : Role}
    (hfind : s.roles.find? (fun x => x.id == role.id) = some role)
    (hmem : (team.id, role.id) ∈ s.team_role) :
    role ∈ teamRoles s team :=
  List.mem_filterMap.2 ⟨(team.id, role.id), List.mem_filter.2 ⟨hmem, by simp⟩, hfind⟩

/-- C3: assigning a stored role to a stored team answers 200, and
GetTeamRoles on that team afterwards answers 200 with a data list that
contains the role's name. -/
theorem assign_then_get_includes (s : DBState) (tn rn : String)
    (team : Team) (role : Role)
    (hnodup : (s.roles.map (·.id)).Nodup)
    (ht : s.teams.find? (fun t => t.name == tn) = some team)
    (hr : s.roles.find? (fun r => r.name == rn) = some role) :
    (assign_role ⟨true, true, some tn, some rn⟩ s).1 =
      .response (.obj [("success", .bool true),
        ("message", .str s!"Assign Role {rn} to Team {tn} is success")]) 200 ∧
    ∃ names : List String,
      get_team_roles tn (assign_role ⟨true, true, some tn, some rn⟩ s).2 =
        .response (.obj [("success", .bool true),
          ("data", .arr (names.map Json.str))]) 200 ∧ rn ∈ names := by
  have hmemr : role ∈ s.roles := List.mem_of_find?_eq_some hr
  have hrn : role.name = rn := by simpa using List.find?_some hr
  have hfind : s.roles.find? (fun x => x.id == role.id) = some role :=
    find?_key_of_nodup Role.id hnodup hmemr
  have hstate : (assign_role ⟨true, true, some tn, some rn⟩ s).2 =
      { s with team_role := s.team_role ++ [(team.id, role.id)] } := by
    simp [assign_role, validate_json, assign_role_body, ht, hr]
  refine ⟨by simp [assign_role, validate_json, assign_role_body, ht, hr], ?_⟩
  refine ⟨(teamRoles s team).map (·.name) ++ [rn], ?_, by simp⟩
  rw [hstate]
  simp [get_team_roles, ht, Team.get_roles,
    teamRoles_append_pair s team role hfind, hrn]

/-- C3 witness: a concrete assignment on a one-team, one-role database. -/
theorem assign_then_get_includes_witness :
    ((([⟨1, "Admin", "Adm"⟩] : List Role).map (·.id)).Nodup ∧
      (⟨[⟨1, "Ops", "Operations"⟩], [⟨1, "Admin", "Adm"⟩], [], 2, 2⟩ : DBState).teams.find?
        (fun t => t.name == "Ops") = some ⟨1, "Ops", "Operations"⟩ ∧
      (⟨[⟨1, "Ops", "Operations"⟩], [⟨1, "Admin", "Adm"⟩], [], 2, 2⟩ : DBState).roles.find?
        (fun r => r.name == "Admin") = some ⟨1, "Admin", "Adm"⟩) ∧
    ((assign_role ⟨true, true, some "Ops", some "Admin"⟩
        ⟨[⟨1, "Ops", "Operations"⟩], [⟨1, "Admin", "Adm"⟩], [], 2, 2⟩).1 =
      .response (.obj [("success", .bool true),
        ("message", .str "Assign Role Admin to Team Ops is success")]) 200 ∧
     ∃ names : List String,
      get_team_roles "Ops" (assign_role ⟨true, true, some "Ops", some "Admin"⟩
          ⟨[⟨1, "Ops", "Operations"⟩], [⟨1, "Admin", "Adm"⟩], [], 2, 2⟩).2 =
        .response (.obj [("success", .bool true),
          ("data", .arr (names.map Json.str))]) 200 ∧ "Admin" ∈ names) :=
  ⟨⟨by decide, rfl, rfl⟩,
   assign_then_get_includes ⟨[⟨1, "Ops", "Operations"⟩], [⟨1, "Admin", "Adm"⟩], [], 2, 2⟩
     "Ops" "Admin" ⟨1, "Ops", "Operations"⟩ ⟨1, "Admin", "Adm"⟩ (by decide) rfl rfl⟩

/-- C9: when the role is already linked to the team, AssignRole still answers
200 and appends the join row again, so the GetTeamRoles data list afterwards
is the old list with the role's name appended — it lists the name one more
time than before. -/
theorem assign_role_duplicate_appends (s : DBState) (tn rn : String)
    (team : Team) (role : Role)
    (hnodup : (s.roles.map (·.id)).Nodup)
    (ht : s.teams.find? (fun t => t.name == tn) = some team)
    (hr : s.roles.find? (fun r => r.name == rn) = some role)
    (halready : (team.id, role.id) ∈ s.team_role) :
    (assign_role ⟨true, true, some tn, some rn⟩ s).1 =
      .response (.obj [("success", .bool true),
        ("message", .str s!"Assign Role {rn} to Team {tn} is success")]) 200 ∧
    ∃ names : List String,
      get_team_roles tn s = .response (.obj [("success", .bool true),
        ("data", .arr (names.map Json.str))]) 200 ∧
      get_team_roles tn (assign_role ⟨true, true, some tn, some rn⟩ s).2 =
        .response (.obj [("success", .bool true),
          ("data", .arr ((names ++ [rn]).map Json.str))]) 200 ∧
      (names ++ [rn]).count rn = names.count rn + 1 := by
  have hmemr : role ∈ s.roles := List.mem_of_find?_eq_some hr
  have hrn : role.name = rn := by simpa using List.find?_some hr
  have hfind : s.roles.find? (fun x => x.id == role.id) = some role :=
    find?_key_of_nodup Role.id hnodup hmemr
  have hin : role ∈ teamRoles s team := role_mem_teamRoles s hfind halready
  have hempty : (teamRoles s team).isEmpty = false := by
    simpa using List.ne_nil_of_mem hin
  have hstate : (assign_role ⟨true, true, some tn, some rn⟩ s).2 =
      { s with team_role := s.team_role ++ [(team.id, role.id)] } := by
    simp [assign_role, validate_json, assign_role_body, ht, hr]
  refine ⟨by simp [assign_role, validate_json, assign_role_body, ht, hr],
    (teamRoles s team).map (·.name), ?_, ?_, by simp⟩
  · simp [get_team_roles, ht, Team.get_roles, hempty]
  · rw [hstate]
    simp [get_team_roles, ht, Team.get_roles,
      teamRoles_append_pair s team role hfind, hrn]

/-- C9 witness: re-assigning an already-linked role on a concrete database
duplicates its name in the GetTeamRoles data. -/
theorem assign_role_duplicate_appends_witness :
    ((([⟨1, "Admin", "Adm"⟩] : List Role).map (·.id)).Nodup ∧
      (⟨[⟨1, "Ops", "Operations"⟩], [⟨1, "Admin", "Adm"⟩], [(1, 1)], 2, 2⟩ : DBState).teams.find?
        (fun t => t.name == "Ops") = some ⟨1, "Ops", "Operations"⟩ ∧
      (⟨[⟨1, "Ops", "Operations"⟩], [⟨1, "Admin", "Adm"⟩], [(1, 1)], 2, 2⟩ : DBState).roles.find?
        (fun r => r.name == "Admin") = some ⟨1, "Admin", "Adm"⟩ ∧
      ((1, 1) ∈ (⟨[⟨1, "Ops", "Operations"⟩], [⟨1, "Admin", "Adm"⟩], [(1, 1)], 2, 2⟩ : DBState).team_role)) ∧
    ((assign_role ⟨true, true, some "Ops", some "Admin"⟩
        ⟨[⟨1, "Ops", "Operations"⟩], [⟨1, "Admin", "Adm"⟩], [(1, 1)], 2, 2⟩).1 =
      .response (.obj [("success", .bool true),
        ("message", .str "Assign Role Admin to Team Ops is success")]) 200 ∧
     ∃ names : List String,
      get_team_roles "Ops" ⟨[⟨1, "Ops", "Operations"⟩], [⟨1, "Admin", "Adm"⟩], [(1, 1)], 2, 2⟩ =
        .response (.obj [("success", .bool true),
          ("data", .arr (names.map Json.str))]) 200 ∧
      get_team_roles "Ops" (assign_role ⟨true, true, some "Ops", some "Admin"⟩
          ⟨[⟨1, "Ops", "Operations"⟩], [⟨1, "Admin", "Adm"⟩], [(1, 1)], 2, 2⟩).2 =
        .response (.obj [("success", .bool true),
          ("data", .arr ((names ++ ["Admin"]).map Json.str))]) 200 ∧
      (names ++ ["Admin"]).count "Admin" = names.count "Admin" + 1) :=
  ⟨⟨by decide, rfl, rfl, by decide⟩,
   assign_role_duplicate_appends
     ⟨[⟨1, "Ops", "Operations"⟩], [⟨1, "Admin", "Adm"⟩], [(1, 1)], 2, 2⟩
     "Ops" "Admin" ⟨1, "Ops", "Operations"⟩ ⟨1, "Admin", "Adm"⟩
     (by decide) rfl rfl (by decide)⟩

/-- C8 counterexample: on the analogous (empty) input the ListRoles response
spells its success flag `"success"` while ListTeams spells it `"Success"`, so
the field names of the two responses differ. -/
theorem list_endpoints_shape_mismatch :
    (get_roles (mirror ⟨[], [], [], 1, 1⟩)).shape =
      some (["success", "count", "data"], 200) ∧
    (get_teams ⟨[], [], [], 1, 1⟩).shape =
      some (["Success", "count", "data"], 200) ∧
    (((get_roles (mirror ⟨[], [], [], 1, 1⟩)).shape ==
        (get_teams ⟨[], [], [], 1, 1⟩).shape) = false) := by
  refine ⟨rfl, rfl, by decide⟩

/-- C8 amended: on analogous inputs (the database with the Team and Role
tables exchanged) each Role operation answers with the same status code and
the same JSON field names as the corresponding Team operation — except the
list endpoints, where the responses agree in status and in the `count` and
`data` fields but spell the success flag differently (`"success"` for roles,
`"Success"` for teams). -/
theorem role_team_contract_shapes (s : DBState) (i : Nat) (req : CreateReq) :
    (get_role i (mirror s)).shape = (get_team i s).shape ∧
    ((create_role req (mirror s)).1).shape = ((create_team req s).1).shape ∧
    ((delete_role i (mirror s)).1).shape = ((delete_team i s).1).shape ∧
    (get_roles (mirror s)).shape = some (["success", "count", "data"], 200) ∧
    (get_teams s).shape = some (["Success", "count", "data"], 200) := by
  refine ⟨?_, ?_, ?_, rfl, rfl⟩
  · cases h : s.teams.find? (fun t => t.id == i) <;>
      simp [get_role, get_team, mirror, List.find?_map, Function.comp_def, h,
        Outcome.shape, Json.keys, Role.serialize, Team.serialize]
  · obtain ⟨ij, nm?, d?⟩ := req
    cases ij
    · simp [create_role, create_team, Outcome.shape, Json.keys]
    · cases nm? with
      | none => simp [create_role, create_team, Outcome.shape]
      | some nm =>
        cases d? with
        | none => simp [create_role, create_team, Outcome.shape, Json.keys]
        | some d =>
          by_cases hP : ∃ a ∈ s.teams, a.name = nm <;>
            simp [create_role, create_team, mirror, List.any_map,
              Function.comp_def, hP, Outcome.shape, Json.keys]
  · by_cases hP : ∃ x ∈ s.teams, x.id = i <;>
      simp [delete_role, delete_team, mirror, List.find?_map,
        Function.comp_def, hP, Outcome.shape, Json.keys]

end Cargill
